import Mathlib

/-!
Shallow embedding of the svc-telemetry ingest core, with theorems checking the
natural-language specification against it.

Conventions of the embedding:
* Rust machine integers are modelled as `Nat`/`Int`; wrapping arithmetic is made
  explicit with `% 2 ^ w` where the source can overflow.
* Rust `f32`/`f64` arithmetic on dyadic constants is modelled exactly over `ℚ`;
  transcendental computations (`sqrt`, `atan2`) are modelled over `ℝ`.
* Fallible Rust functions returning `Result` are modelled with `Except`;
  functions whose only effect of interest is an optional emission are modelled
  with `Option`.
* Redis state is modelled as an association list (newest entry first), with the
  commands `INCR`/`PEXPIRE`/`PSETEX`/`MGET` given their documented semantics;
  in particular `multiple_get` passes its keys joined by a space as a SINGLE
  `MGET` key, exactly as the source does.
-/

namespace Telemetry

-- Decidable equality for `Except`, used to evaluate embedded functions on
-- concrete inputs.
deriving instance DecidableEq for Except

----------------------------------------------------------------
-- msg/adsb.rs: wire codec primitives
----------------------------------------------------------------

namespace Adsb

/-- Sign bit of an ADS-B velocity field (external crate `adsb_deku::Sign`):
0 = positive, 1 = negative. -/
inductive Sign where
  | Positive
  | Negative
  deriving DecidableEq

/-- Errors decoding ADS-B packets (`DecodeError` in msg/adsb.rs). -/
inductive DecodeError where
  | CrossedLatitudeZones
  | UnsupportedSubtype
  | InvalidSubtype
  deriving DecidableEq

/-- Embedding of `decode_altitude` (msg/adsb.rs).  The source computes
`alt_ft` in Rust `u32` arithmetic; the subtraction `n * coef_ft - 1000` is
therefore a `u32` subtraction, modelled here as addition of `2 ^ 32 - 1000`
modulo `2 ^ 32` (in a release build the value wraps; a debug build panics).
The final multiplication by `0.3048` is modelled exactly over `ℚ`. -/
def decode_altitude (altitude : Nat) : ℚ :=
  let coef_ft : Nat := if 0x010 &&& altitude > 0 then 25 else 100
  let n : Nat := ((0xFE0 &&& altitude) >>> 1) ||| (0xF &&& altitude)
  let alt_ft : Nat := (n * coef_ft + (2 ^ 32 - 1000)) % 2 ^ 32
  (3048 / 10000 : ℚ) * (alt_ft : ℚ)

/-- Embedding of `decode_vertical_speed` (msg/adsb.rs).  `vrate_value` is the
9-bit field carried in a `u16`; the arithmetic happens in `i32`, which cannot
overflow for any `u16` input, so it is modelled directly over `ℤ`. -/
def decode_vertical_speed (vrate_sign : Sign) (vrate_value : Nat) :
    Except DecodeError ℚ :=
  let v : ℤ := (vrate_value : ℤ)
  let speed_ftps : ℤ :=
    match vrate_sign with
    | Sign.Positive => 64 * (v - 1)
    | Sign.Negative => -64 * (v - 1)
  Except.ok ((speed_ftps : ℚ) * (3048 / 10000))

end Adsb

----------------------------------------------------------------
-- cache/mod.rs: bytes_to_key
----------------------------------------------------------------

namespace Cache

/-- Lowercase hexadecimal digit for a value below 16 (the digit set written
by Rust `format!` with the `x` specifier). -/
def hexDigit (n : Nat) : Char := Nat.digitChar n

/-- Characters produced for one byte by Rust `format!` with the `{:02x}`
format: exactly two lowercase hexadecimal digits for every `u8`. -/
def byteToHex (b : Nat) : List Char := [hexDigit (b / 16), hexDigit (b % 16)]

/-- Embedding of `bytes_to_key` (cache/mod.rs): fold over the bytes,
appending the two hex digits of each byte.  A `String` is modelled by its
character list. -/
def bytes_to_key (bytes : List Nat) : String :=
  String.mk (bytes.foldl (fun key byte => key ++ byteToHex byte) [])

/-- Encoding described by the spec: the lowercase two-hex-digit-per-byte
encoding of the byte slice, written directly as a flat map. -/
def hexEncode (bytes : List Nat) : String :=
  String.mk (bytes.flatMap byteToHex)

end Cache

----------------------------------------------------------------
-- rest/api/netrid.rs: process_basic_message (AircraftId construction)
----------------------------------------------------------------

namespace Netrid

/-- Remote-ID identification type (`IdType` in msg/netrid.rs). -/
inductive IdType where
  | None
  | SerialNumber
  | CaaAssigned
  | UtmAssigned
  | SpecificSession
  deriving DecidableEq

/-- Claim-relevant fields of the `AircraftId` record sent to the spatial
service (the record type itself lives in the external gis client crate;
`aircraft_type` and the timestamps do not participate in any claim and are
omitted). -/
structure AircraftId where
  identifier : Option String
  session_id : Option String
  deriving DecidableEq

/-- Embedding of the `AircraftId` construction in `process_basic_message`
(rest/api/netrid.rs): the record starts with `identifier = jwt_identifier`
and `session_id = none`; the match on `id_type` then assigns the uas-id
derived string to one of the two fields.  `uas_identifier` stands for the
string obtained from the `uas_id` bytes (UTF-8 decode and trim, whose
failure aborts with 400 before this point). -/
def process_basic_message (jwt_identifier : String) (id_type : IdType)
    (uas_identifier : String) : AircraftId :=
  let id_item : AircraftId := { identifier := some jwt_identifier, session_id := none }
  match id_type with
  | IdType.UtmAssigned => { id_item with session_id := some uas_identifier }
  | IdType.SpecificSession => { id_item with session_id := some uas_identifier }
  | _ => { id_item with identifier := some uas_identifier }

/-- Predicate of the claim: exactly one of the identifier and session fields
is populated. -/
def exactlyOneIdField (r : AircraftId) : Bool :=
  r.identifier.isSome ^^ r.session_id.isSome

end Netrid

----------------------------------------------------------------
-- cache/pool.rs: TelemetryPool::increment (dedup counter)
----------------------------------------------------------------

namespace Cache

/-- State of the dedup key family in Redis: an association list mapping a key
to its counter value and its absolute expiry time in milliseconds (newest
entry first; lookup takes the first hit, so prepending overwrites). -/
abbrev CacheState := List (String × Nat × Nat)

/-- First-match lookup in the association list. -/
def lookupEntry : CacheState → String → Option (Nat × Nat)
  | [], _ => none
  | (k, v) :: rest, key => if k = key then some v else lookupEntry rest key

/-- Embedding of `TelemetryPool::increment` (cache/pool.rs).  The pipeline is
`INCR` followed by `PEXPIRE`: `INCR` creates the key with value 1 when it is
absent or already expired at `now`, otherwise adds one; `PEXPIRE` then sets
the expiry to `now + expiration_ms` on EVERY call — the `NX` option that
would restrict it to the first call is commented out in the source.  Returns
the counter value and the new state. -/
def increment (key_folder : String) (st : CacheState) (key : String)
    (expiration_ms now : Nat) : Nat × CacheState :=
  let key := key_folder ++ ":" ++ key
  let current : Nat :=
    match lookupEntry st key with
    | some (v, expire_at) => if now < expire_at then v else 0
    | none => 0
  let value := current + 1
  (value, (key, value, now + expiration_ms) :: st)

/-- Reference model of `increment` following the function's own doc comment
and the spec sentence (TTL set on create and not refreshed on increment):
the expiry is written only when the key is created. -/
def increment_documented (key_folder : String) (st : CacheState) (key : String)
    (expiration_ms now : Nat) : Nat × CacheState :=
  let key := key_folder ++ ":" ++ key
  match lookupEntry st key with
  | some (v, expire_at) =>
      if now < expire_at then (v + 1, (key, v + 1, expire_at) :: st)
      else (1, (key, 1, now + expiration_ms) :: st)
  | none => (1, (key, 1, now + expiration_ms) :: st)

/-- Values returned by a sequence of `increment` calls on one key at the
given times. -/
def incrementTrace (key_folder key : String) (ttl : Nat) :
    CacheState → List Nat → List Nat
  | _, [] => []
  | st, t :: ts =>
    let r := increment key_folder st key ttl t
    r.1 :: incrementTrace key_folder key ttl r.2 ts

/-- Values returned by a sequence of `increment_documented` calls on one key
at the given times. -/
def incrementDocTrace (key_folder key : String) (ttl : Nat) :
    CacheState → List Nat → List Nat
  | _, [] => []
  | st, t :: ts =>
    let r := increment_documented key_folder st key ttl t
    r.1 :: incrementDocTrace key_folder key ttl r.2 ts

end Cache

----------------------------------------------------------------
-- gis.rs: gis_batch_loop (one iteration of the batcher)
----------------------------------------------------------------

namespace Gis

/-- Observable outcome of one iteration of `gis_batch_loop` (gis.rs): the
ring and the persistent request buffer `data.aircraft` after the iteration,
the batch sent to the spatial service (if any), and whether the client
handle was invalidated. -/
structure BatchStep where
  ring : List Nat
  data : List Nat
  sent : Option (List Nat)
  invalidated : Bool
  deriving DecidableEq

/-- Embedding of one iteration of `gis_batch_loop` (gis.rs).  `data` is the
`data.aircraft` buffer declared OUTSIDE the loop, so it persists from the
previous iteration; it is overwritten only when the ring yields a drain and
is never cleared after a send.  When the client is unavailable the iteration
skips before draining; when the drained (or left-over) batch is empty the
iteration skips the send; on send failure the client is invalidated and the
loop continues without restoring the ring. -/
def gis_batch_step (max_items : Nat) (client_ok send_ok : Bool)
    (ring data : List Nat) : BatchStep :=
  if client_ok = false then
    { ring := ring, data := data, sent := none, invalidated := false }
  else
    let n_elements := min max_items ring.length
    let data' := if ring.isEmpty then data else ring.take n_elements
    let ring' := if ring.isEmpty then ring else ring.drop n_elements
    if data'.isEmpty then
      { ring := ring', data := data', sent := none, invalidated := false }
    else if send_ok then
      { ring := ring', data := data', sent := some data', invalidated := false }
    else
      { ring := ring', data := data', sent := none, invalidated := true }

end Gis

----------------------------------------------------------------
-- rest/api/adsb.rs: airborne-position arm and gis_position_push
----------------------------------------------------------------

namespace Adsb

/-- CPR parity flag (external crate `adsb_deku::CPRFormat`). -/
inductive CPRFormat where
  | Even
  | Odd
  deriving DecidableEq

/-- Which CPR half a cache entry stores. -/
inductive CprField where
  | latCpr
  | lonCpr
  deriving DecidableEq

/-- CPR pair cache: association list from a Redis key string to the stored
17-bit CPR half (newest entry first; lookup takes the first hit, so
prepending overwrites). -/
abbrev PairCache := List (String × Nat)

/-- First-match lookup in the CPR pair cache. -/
def pairLookup : PairCache → String → Option Nat
  | [], _ => none
  | (k, v) :: rest, key => if k = key then some v else pairLookup rest key

/-- Rendering of Rust `{:x}` on the icao `u32`: lowercase hex digits, no
leading zeros. -/
def hexNat (n : Nat) : String := String.mk (Nat.toDigits 16 n)

/-- Rendering of `CPRFormat::Odd as u8` / `CPRFormat::Even as u8` under
`{}`: the discriminant value. -/
def parityCode : CPRFormat → String
  | CPRFormat.Even => "0"
  | CPRFormat.Odd => "1"

/-- The cache key `format!("{:x}:lat_cpr:{parity}")` /
`format!("{:x}:lon_cpr:{parity}")`, with the parity rendering passed in as
a string. -/
def cprKeyStr (icao : Nat) (field : CprField) (parity : String) : String :=
  hexNat icao ++
    (match field with
     | CprField.latCpr => ":lat_cpr:"
     | CprField.lonCpr => ":lon_cpr:") ++ parity

/-- Embedding of `TelemetryPool::multiple_set` (cache/pool.rs): `PSETEX`
each pair; prepending realises the overwrite. -/
def multiple_set (cache : PairCache) (keyvals : List (String × Nat)) : PairCache :=
  keyvals ++ cache

/-- Embedding of `TelemetryPool::multiple_get` (cache/pool.rs).  The source
calls `mget(keys.join(" "))`: the keys are joined by a space into ONE
string, so Redis receives a single-key `MGET` on the concatenated key and
answers with exactly one reply.  Present replies are collected (`filterMap`,
as the source filters out nil replies) and the call fails unless exactly as
many values as keys were found. -/
def multiple_get (cache : PairCache) (keys : List String) : Option (List Nat) :=
  let joined := String.intercalate " " keys
  let responses := [pairLookup cache joined]
  let values := responses.filterMap id
  if values.length = keys.length then some values else none

/-- Fields of `GisPositionData` (rest/api/adsb.rs). -/
structure GisPositionData where
  icao : Nat
  lat_cpr : Nat
  lon_cpr : Nat
  alt : Nat
  odd_flag : CPRFormat
  deriving DecidableEq

/-- Claim-relevant fields of the `AircraftPosition` record sent to the
spatial service (identifier abbreviated to the icao number; timestamps
omitted). -/
structure AircraftPosition where
  identifier : Nat
  latitude : ℚ
  longitude : ℚ
  altitude : ℚ
  deriving DecidableEq

/-- Observable outcome of `gis_position_push`: `skipped` is the early
`Ok(())` return for odd frames (nothing fetched, nothing emitted), `failed`
is the `Err(())` that the handler maps to HTTP 500, `pushed` is the
successful enqueue of a decoded position. -/
inductive PushOutcome where
  | skipped
  | failed
  | pushed (p : AircraftPosition)
  deriving DecidableEq

/-- Embedding of `gis_position_push` (rest/api/adsb.rs), parameterised by
the CPR decoder `dec` (the f64 transcendental `decode_cpr` of msg/adsb.rs;
`none` models its `CrossedLatitudeZones` failure).  An odd-flag message
returns immediately WITHOUT fetching or decoding; otherwise the two
odd-parity keys (parity rendered as `CPRFormat::Odd as u8`, i.e. "1") are
fetched with `multiple_get` — whose space-joined single-key `MGET` can
never return two values — and only if both values arrive is `dec` applied
with the two cached values as its first (even-role) arguments and the fresh
message halves as its last (odd-role) arguments. -/
def gis_position_push (dec : Nat → Nat → Nat → Nat → Option (ℚ × ℚ))
    (cache : PairCache) (data : GisPositionData) : PushOutcome :=
  if data.odd_flag = CPRFormat.Odd then
    PushOutcome.skipped
  else
    match multiple_get cache
        [cprKeyStr data.icao CprField.latCpr (parityCode CPRFormat.Odd),
         cprKeyStr data.icao CprField.lonCpr (parityCode CPRFormat.Odd)] with
    | some [e_lat_cpr, e_lon_cpr] =>
      match dec e_lat_cpr e_lon_cpr data.lat_cpr data.lon_cpr with
      | some p =>
        PushOutcome.pushed
          { identifier := data.icao, latitude := p.1, longitude := p.2,
            altitude := decode_altitude data.alt }
      | none => PushOutcome.failed
    | _ => PushOutcome.failed

/-- Fields of an accepted airborne-position frame as destructured by the
`AirbornePosition` arm of the `adsb` handler. -/
structure AirbornePositionFields where
  icao : Nat
  odd_flag : CPRFormat
  lat_cpr : Nat
  lon_cpr : Nat
  alt : Nat
  deriving DecidableEq

/-- Embedding of the `AirbornePosition` arm of the `adsb` handler
(rest/api/adsb.rs): `multiple_set` the fresh CPR halves under keys built
from (icao, parity) — the parity rendered by the external crate's `Display`
for `CPRFormat`, passed in as `parityStr` — then run `gis_position_push` on
the updated cache.  Returns the new cache and the push outcome. -/
def adsb_position_arm (parityStr : CPRFormat → String)
    (dec : Nat → Nat → Nat → Nat → Option (ℚ × ℚ))
    (cache : PairCache) (f : AirbornePositionFields) :
    PairCache × PushOutcome :=
  let cache' := multiple_set cache
    [(cprKeyStr f.icao CprField.latCpr (parityStr f.odd_flag), f.lat_cpr),
     (cprKeyStr f.icao CprField.lonCpr (parityStr f.odd_flag), f.lon_cpr)]
  (cache', gis_position_push dec cache'
    { icao := f.icao, lat_cpr := f.lat_cpr, lon_cpr := f.lon_cpr,
      alt := f.alt, odd_flag := f.odd_flag })

end Adsb

----------------------------------------------------------------
-- msg/adsb.rs: decode_speed_direction (airborne velocity)
----------------------------------------------------------------

namespace Adsb

/-- Velocity components `(vx, vy)` computed by the subtype match inside
`decode_speed_direction` (msg/adsb.rs).  The velocity fields are `u16`
values cast to `i32`; the arithmetic cannot overflow there and is modelled
over `ℤ`. -/
def velocityComponents (st : Nat) (ew_sign : Sign) (ew_vel : Nat)
    (ns_sign : Sign) (ns_vel : Nat) : Except DecodeError (ℤ × ℤ) :=
  let ew : ℤ := (ew_vel : ℤ)
  let ns : ℤ := (ns_vel : ℤ)
  if st = 1 then
    Except.ok
      (match ew_sign with
       | Sign.Positive => ew - 1
       | Sign.Negative => -(ew - 1),
       match ns_sign with
       | Sign.Positive => ns - 1
       | Sign.Negative => -(ns - 1))
  else if st = 2 then
    Except.ok
      (match ew_sign with
       | Sign.Positive => 4 * (ew - 1)
       | Sign.Negative => -(4 * (ew - 1)),
       match ns_sign with
       | Sign.Positive => 4 * (ns - 1)
       | Sign.Negative => -(4 * (ns - 1)))
  else if st = 3 ∨ st = 4 then
    Except.error DecodeError.UnsupportedSubtype
  else
    Except.error DecodeError.InvalidSubtype

/-- Model of Rust `f32::atan2`: `y.atan2 x` is the angle of the point
`(x, y)`, realised as the argument of the complex number `x + y*I`, which
lies in `(-π, π]`. -/
noncomputable def atan2 (y x : ℝ) : ℝ := Complex.arg ⟨x, y⟩

/-- Speed computation of `decode_speed_direction`: Euclidean norm of the
integer components in knots, converted to m/s by the factor `0.514444`. -/
noncomputable def speed_mps (vx vy : ℤ) : ℝ :=
  Real.sqrt (((vx ^ 2 + vy ^ 2 : ℤ) : ℝ)) * (514444 / 1000000)

/-- Normalisation step of `decode_speed_direction`: add 360 to a negative
angle. -/
noncomputable def normalize360 (direction : ℝ) : ℝ :=
  if direction < 0 then direction + 360 else direction

/-- Track computation of `decode_speed_direction`: `vx.atan2 vy` scaled by
`DIRECTION_COEFFICIENT = 360 / (2π)`, then normalised. -/
noncomputable def direction_deg (vx vy : ℤ) : ℝ :=
  normalize360 (atan2 (vx : ℝ) (vy : ℝ) * (360 / (2 * Real.pi)))

/-- Embedding of `decode_speed_direction` (msg/adsb.rs): dispatch on the
subtype to obtain `(vx, vy)`, then return the speed and normalised track. -/
noncomputable def decode_speed_direction (st : Nat) (ew_sign : Sign)
    (ew_vel : Nat) (ns_sign : Sign) (ns_vel : Nat) :
    Except DecodeError (ℝ × ℝ) :=
  (velocityComponents st ew_sign ew_vel ns_sign ns_vel).map fun p =>
    (speed_mps p.1 p.2, direction_deg p.1 p.2)

end Adsb

----------------------------------------------------------------
-- msg/netrid.rs: LocationMessage decoders
----------------------------------------------------------------

namespace Netrid

/-- East/West direction flag of a Remote-ID location message. -/
inductive EastWestDirection where
  | East
  | West
  deriving DecidableEq

/-- Speed multiplier flag of a Remote-ID location message. -/
inductive SpeedMultiplier where
  | X0_25
  | X0_75
  deriving DecidableEq

/-- Errors decoding a Remote-ID location message. -/
inductive LocationDecodeError where
  | SpeedGte254_25
  | UnknownSpeed
  | UnknownAltitude
  | UnknownTimestamp
  deriving DecidableEq

/-- Claim-relevant fields of `LocationMessage` (msg/netrid.rs).
`track_direction` and `speed` are `u8` fields, `vertical_speed` is `i8`,
`latitude`/`longitude` are `i32`, `pressure_altitude` is `u16`; the status,
accuracy, timestamp and reserved fields play no part in any claim and are
omitted. -/
structure LocationMessage where
  ew_direction : EastWestDirection
  speed_multiplier : SpeedMultiplier
  track_direction : Nat
  speed : Nat
  vertical_speed : Int
  latitude : Int
  longitude : Int
  pressure_altitude : Nat
  deriving DecidableEq

/-- Embedding of `LocationMessage::decode_direction` (msg/netrid.rs): the
`u8` track field, plus 180 when the East/West flag says West.  The source
returns a `u16`; no wrap can occur (at most 255 + 180). -/
def decode_direction (m : LocationMessage) : Nat :=
  match m.ew_direction with
  | EastWestDirection.East => m.track_direction
  | EastWestDirection.West => m.track_direction + 180

/-- Embedding of `LocationMessage::decode_speed` (msg/netrid.rs); the `f32`
arithmetic here is exact (dyadic constants, small operands), so `ℚ` models
it bit-for-bit. -/
def decode_speed (m : LocationMessage) : Except LocationDecodeError ℚ :=
  let speed : ℚ :=
    match m.speed_multiplier with
    | SpeedMultiplier.X0_25 => (m.speed : ℚ) * (25 / 100)
    | SpeedMultiplier.X0_75 => (m.speed : ℚ) * (75 / 100) + 6375 / 100
  if speed = 255 then Except.error LocationDecodeError.UnknownSpeed
  else if speed = 25425 / 100 then Except.error LocationDecodeError.SpeedGte254_25
  else Except.ok speed

/-- Embedding of `LocationMessage::decode_altitude` (msg/netrid.rs). -/
def decode_altitude (m : LocationMessage) : Except LocationDecodeError ℚ :=
  let altitude : ℚ := (m.pressure_altitude : ℚ) * (5 / 10) - 1000
  if altitude = -1000 then Except.error LocationDecodeError.UnknownAltitude
  else Except.ok altitude

/-- Embedding of `LocationMessage::decode_vertical_speed` (msg/netrid.rs):
half the `i8` field, 63 is the unknown sentinel, saturate to ±62. -/
def decode_vertical_speed (m : LocationMessage) : Except LocationDecodeError ℚ :=
  let speed : ℚ := (m.vertical_speed : ℚ) * (5 / 10)
  if speed = 63 then Except.error LocationDecodeError.UnknownSpeed
  else if 62 ≤ speed then Except.ok 62
  else if speed ≤ -62 then Except.ok (-62)
  else Except.ok speed

/-- Claim-relevant fields of the `AircraftVelocity` record the handler
sends to the spatial service (timestamps omitted). -/
structure AircraftVelocity where
  identifier : String
  velocity_horizontal_ground_mps : ℚ
  velocity_vertical_mps : ℚ
  track_angle_degrees : ℚ
  deriving DecidableEq

/-- Embedding of the velocity part of `process_location_message`
(rest/api/netrid.rs): decode altitude, speed and vertical speed (each
failure maps to HTTP 400 before anything is emitted), then build the
velocity record with `track_angle_degrees = decode_direction(m)`. -/
def process_location_velocity (identifier : String) (m : LocationMessage) :
    Except Nat AircraftVelocity :=
  match decode_altitude m with
  | Except.error _ => Except.error 400
  | Except.ok _ =>
    match decode_speed m with
    | Except.error _ => Except.error 400
    | Except.ok v_h =>
      match decode_vertical_speed m with
      | Except.error _ => Except.error 400
      | Except.ok v_v =>
        Except.ok
          { identifier := identifier,
            velocity_horizontal_ground_mps := v_h,
            velocity_vertical_mps := v_v,
            track_angle_degrees := (decode_direction m : ℚ) }

end Netrid

----------------------------------------------------------------
-- rest/api/jwt.rs: login and Claim::create
----------------------------------------------------------------

namespace Jwt

/-- Continuation byte of a UTF-8 sequence: `0x80..0xBF`. -/
def utf8Cont (b : Nat) : Bool := 0x80 ≤ b && b < 0xC0

/-- UTF-8 validity of a byte sequence (the check performed by Rust
`String::from_utf8`, per RFC 3629: no overlong forms, no surrogates, no
code points beyond U+10FFFF). -/
def validUtf8 : List Nat → Bool
  | [] => true
  | b :: rest =>
    if b < 0x80 then validUtf8 rest
    else if b < 0xC2 then false
    else if b < 0xE0 then
      match rest with
      | c1 :: rest' => utf8Cont c1 && validUtf8 rest'
      | [] => false
    else if b < 0xF0 then
      match rest with
      | c1 :: c2 :: rest' =>
        (if b = 0xE0 then 0xA0 ≤ c1 && c1 < 0xC0
         else if b = 0xED then 0x80 ≤ c1 && c1 < 0xA0
         else utf8Cont c1) && utf8Cont c2 && validUtf8 rest'
      | _ => false
    else if b < 0xF5 then
      match rest with
      | c1 :: c2 :: c3 :: rest' =>
        (if b = 0xF0 then 0x90 ≤ c1 && c1 < 0xC0
         else if b = 0xF4 then 0x80 ≤ c1 && c1 < 0x90
         else utf8Cont c1) && utf8Cont c2 && utf8Cont c3 && validUtf8 rest'
      | _ => false
    else false

/-- The JWT payload (`Claim` in rest/api/jwt.rs).  The subject is kept as
the byte sequence of the identifier (UTF-8 decoding round-trips). -/
structure Claim where
  sub : List Nat
  iat : Nat
  exp : Nat
  deriving DecidableEq

/-- Embedding of `Claim::create` (rest/api/jwt.rs).  The source reads the
clock TWICE: `iat` is the first reading's timestamp `t_iat`; `exp` is the
SECOND reading's timestamp `t_exp` plus `JWT_EXPIRE_SECONDS = 360`.  Each
timestamp is converted from `i64` to `usize`, failing with 500 when
negative.  Signing with the process-lifetime secret is modelled as the
identity on the payload. -/
def claimCreate (sub : List Nat) (t_iat t_exp : Int) : Except Nat Claim :=
  if t_iat < 0 then Except.error 500
  else if t_exp + 360 < 0 then Except.error 500
  else Except.ok { sub := sub, iat := t_iat.toNat, exp := (t_exp + 360).toNat }

/-- Embedding of the `login` handler (rest/api/jwt.rs): the body bytes must
be valid UTF-8 (`String::from_utf8`, else 400) and non-empty (else 400);
then the token is minted by `Claim::create`. -/
def login (body : List Nat) (t_iat t_exp : Int) : Except Nat Claim :=
  if validUtf8 body = false then Except.error 400
  else if body.isEmpty then Except.error 400
  else claimCreate body t_iat t_exp

end Jwt

----------------------------------------------------------------
-- Concrete fixtures used to evaluate the embedding
----------------------------------------------------------------

/-- Integer sign factor of an ADS-B sign bit. -/
def sgnZ : Adsb.Sign → ℤ
  | Adsb.Sign.Positive => 1
  | Adsb.Sign.Negative => -1

/-- A CPR decoder that succeeds on every input, used to show that the
position arm never reaches the decoder. -/
def decAny : Nat → Nat → Nat → Nat → Option (ℚ × ℚ) := fun _ _ _ _ => some (0, 0)

/-- A concrete stand-in for the external crate's `Display` of `CPRFormat`,
rendering the discriminant. -/
def parityFix : Adsb.CPRFormat → String := Adsb.parityCode

/-- A CPR pair cache already holding both even-parity halves for icao
`0x123456`, stored under the keys `parityFix` renders. -/
def evenHalvesCache : Adsb.PairCache :=
  [(Adsb.cprKeyStr 0x123456 Adsb.CprField.latCpr (parityFix Adsb.CPRFormat.Even), 5),
   (Adsb.cprKeyStr 0x123456 Adsb.CprField.lonCpr (parityFix Adsb.CPRFormat.Even), 6)]

/-- A well-formed Remote-ID location message facing West with
`track_direction = 200`, all other decoded fields valid. -/
def westTrackMsg : Netrid.LocationMessage :=
  { ew_direction := Netrid.EastWestDirection.West,
    speed_multiplier := Netrid.SpeedMultiplier.X0_25,
    track_direction := 200, speed := 0, vertical_speed := 0,
    latitude := 0, longitude := 0, pressure_altitude := 2000 }

/-- The velocity record the handler emits for `westTrackMsg`. -/
def westTrackVelocity : Netrid.AircraftVelocity :=
  { identifier := "drone", velocity_horizontal_ground_mps := 0,
    velocity_vertical_mps := 0, track_angle_degrees := 380 }

----------------------------------------------------------------
-- Shared helper lemmas
----------------------------------------------------------------

/-- Adding 360 to a negative angle from `(-180, 180]` lands in `[0, 360)`. -/
theorem normalize360_mem {d : ℝ} (hlb : -180 < d) (hub : d ≤ 180) :
    0 ≤ Adsb.normalize360 d ∧ Adsb.normalize360 d < 360 := by
  unfold Adsb.normalize360
  split_ifs with h
  · constructor <;> linarith
  · constructor <;> linarith [not_lt.mp h]

/-- The normalised track produced by the ADS-B velocity decoder lies in
`[0, 360)` for every integer component pair. -/
theorem direction_deg_mem (vx vy : ℤ) :
    0 ≤ Adsb.direction_deg vx vy ∧ Adsb.direction_deg vx vy < 360 := by
  have hpi : 0 < Real.pi := Real.pi_pos
  have h1 : Complex.arg ⟨(vy : ℝ), (vx : ℝ)⟩ ≤ Real.pi := Complex.arg_le_pi _
  have h2 : -Real.pi < Complex.arg ⟨(vy : ℝ), (vx : ℝ)⟩ := Complex.neg_pi_lt_arg _
  have hc : (0 : ℝ) < 360 / (2 * Real.pi) := by positivity
  have heq : Real.pi * (360 / (2 * Real.pi)) = 180 := by
    field_simp
    ring
  have hub : Complex.arg ⟨(vy : ℝ), (vx : ℝ)⟩ * (360 / (2 * Real.pi)) ≤ 180 := by
    have := mul_le_mul_of_nonneg_right h1 (le_of_lt hc)
    linarith
  have hlb : -180 < Complex.arg ⟨(vy : ℝ), (vx : ℝ)⟩ * (360 / (2 * Real.pi)) := by
    have := mul_lt_mul_of_pos_right h2 hc
    have heq' : -Real.pi * (360 / (2 * Real.pi)) = -180 := by
      rw [neg_mul, heq]
    linarith
  exact normalize360_mem hlb hub

/-- Every successful result of the ADS-B velocity decoder has its track in
`[0, 360)`. -/
theorem decode_speed_direction_ok_range (st ew_vel ns_vel : Nat)
    (ew_sign ns_sign : Adsb.Sign) (p : ℝ × ℝ)
    (h : Adsb.decode_speed_direction st ew_sign ew_vel ns_sign ns_vel = Except.ok p) :
    0 ≤ p.2 ∧ p.2 < 360 := by
  unfold Adsb.decode_speed_direction at h
  cases hv : Adsb.velocityComponents st ew_sign ew_vel ns_sign ns_vel with
  | error e => rw [hv] at h; simp [Except.map] at h
  | ok q =>
    rw [hv] at h
    simp only [Except.map, Except.ok.injEq] at h
    subst h
    exact direction_deg_mem q.1 q.2

/-- The lowercase hexadecimal digit map is injective below 16. -/
theorem hexDigit_inj : ∀ a, a < 16 → ∀ b, b < 16 →
    Cache.hexDigit a = Cache.hexDigit b → a = b := by decide

/-- Folding byte-hex pairs onto an accumulator is appending the flat map. -/
theorem foldl_byteToHex (l : List Nat) (acc : List Char) :
    l.foldl (fun key byte => key ++ Cache.byteToHex byte) acc =
      acc ++ l.flatMap Cache.byteToHex := by
  induction l generalizing acc with
  | nil => simp
  | cons b t ih => simp [ih, List.append_assoc]

/-- Each byte contributes exactly two characters to the flat hex encoding. -/
theorem length_flatMap_byteToHex : ∀ l : List Nat,
    (l.flatMap Cache.byteToHex).length = 2 * l.length := by
  intro l
  induction l with
  | nil => simp
  | cons b t ih =>
    simp only [List.flatMap_cons, List.length_append, ih, Cache.byteToHex,
      List.length_cons, List.length_nil, List.length_singleton]
    omega

/-- The flat hex encoding is injective on byte lists. -/
theorem flatMap_byteToHex_inj : ∀ l1 l2 : List Nat,
    (∀ b ∈ l1, b < 256) → (∀ b ∈ l2, b < 256) →
    l1.flatMap Cache.byteToHex = l2.flatMap Cache.byteToHex → l1 = l2 := by
  intro l1
  induction l1 with
  | nil =>
    intro l2 _ _ h
    cases l2 with
    | nil => rfl
    | cons b t => simp [Cache.byteToHex] at h
  | cons a t ih =>
    intro l2 h1 h2 h
    cases l2 with
    | nil => simp [Cache.byteToHex] at h
    | cons b t2 =>
      simp only [List.flatMap_cons, Cache.byteToHex, List.cons_append,
        List.nil_append, List.cons.injEq] at h
      obtain ⟨hd1, hd2, htail⟩ := h
      have ha : a < 256 := h1 a (List.mem_cons_self a t)
      have hb : b < 256 := h2 b (List.mem_cons_self b t2)
      have e1 : a / 16 = b / 16 :=
        hexDigit_inj _ (by omega) _ (by omega) hd1
      have e2 : a % 16 = b % 16 :=
        hexDigit_inj _ (by omega) _ (by omega) hd2
      have hab : a = b := by omega
      subst hab
      have := ih t2 (fun x hx => h1 x (List.mem_cons_of_mem a hx))
        (fun x hx => h2 x (List.mem_cons_of_mem a hx)) htail
      rw [this]

----------------------------------------------------------------
-- C9: bytes_to_key is the injective lowercase hex encoding
----------------------------------------------------------------

/-- C9: `bytes_to_key` maps every byte slice to its lowercase
two-hex-digit-per-byte encoding, whose length is exactly twice the input
length, and the mapping is injective, so distinct raw payloads never
collide on the same dedup cache key. -/
theorem bytes_to_key_spec (l1 l2 : List Nat)
    (h1 : ∀ b ∈ l1, b < 256) (h2 : ∀ b ∈ l2, b < 256) :
    Cache.bytes_to_key l1 = Cache.hexEncode l1 ∧
    (Cache.bytes_to_key l1).length = 2 * l1.length ∧
    (Cache.bytes_to_key l1 = Cache.bytes_to_key l2 → l1 = l2) := by
  have hkey : ∀ l : List Nat, Cache.bytes_to_key l = Cache.hexEncode l := by
    intro l
    unfold Cache.bytes_to_key Cache.hexEncode
    rw [foldl_byteToHex]
    simp
  refine ⟨hkey l1, ?_, ?_⟩
  · rw [hkey l1]
    show (l1.flatMap Cache.byteToHex).length = 2 * l1.length
    exact length_flatMap_byteToHex l1
  · intro h
    rw [hkey l1, hkey l2] at h
    exact flatMap_byteToHex_inj l1 l2 h1 h2 (congrArg String.data h)

/-- Witness for C9 at a concrete byte list. -/
theorem bytes_to_key_spec_witness :
    Cache.bytes_to_key [1, 255] = Cache.hexEncode [1, 255] ∧
    (Cache.bytes_to_key [1, 255]).length = 2 * [1, 255].length ∧
    (Cache.bytes_to_key [1, 255] = Cache.bytes_to_key [1, 255] →
      [1, 255] = [1, 255]) :=
  bytes_to_key_spec [1, 255] [1, 255] (by decide) (by decide)

----------------------------------------------------------------
-- C10: decode_vertical_speed is total and infallible
----------------------------------------------------------------

/-- C10: for every `(vrate_sign, vrate_value)` input, `decode_vertical_speed`
returns `Ok(±64·(vrate_value−1)·0.3048)` and its `DecodeError` branch is
unreachable despite the `Result` return type. -/
theorem decode_vertical_speed_spec (s : Adsb.Sign) (v : Nat) (_hv : v < 65536) :
    Adsb.decode_vertical_speed s v =
      Except.ok (((sgnZ s * (64 * ((v : ℤ) - 1)) : ℤ) : ℚ) * (3048 / 10000)) ∧
    ∀ e, Adsb.decode_vertical_speed s v ≠ Except.error e := by
  constructor
  · cases s <;>
      simp only [Adsb.decode_vertical_speed, sgnZ, Except.ok.injEq] <;>
      push_cast <;>
      ring
  · intro e h
    simp [Adsb.decode_vertical_speed] at h

/-- Witness for C10 at the test vector `(Negative, 14)`. -/
theorem decode_vertical_speed_spec_witness :
    Adsb.decode_vertical_speed Adsb.Sign.Negative 14 ≠
      Except.error Adsb.DecodeError.InvalidSubtype :=
  (decode_vertical_speed_spec Adsb.Sign.Negative 14 (by decide)).2
    Adsb.DecodeError.InvalidSubtype

----------------------------------------------------------------
-- C7: decode_altitude and the u32 underflow below 1000 ft
----------------------------------------------------------------

/-- C7: at the altitude field 16 (Q-bit set, all value bits zero) the
value-to-feet quantity of the claim is `0·25 − 1000 = −1000`, but the
source computes it with an unsigned 32-bit subtraction, which wraps to
`2^32 − 1000 = 4294966296` feet (a debug build panics instead); the decoded
value is therefore not `0.3048 · (−1000)`. -/
theorem decode_altitude_underflow :
    Adsb.decode_altitude 16 = (3048 / 10000 : ℚ) * 4294966296 ∧
    Adsb.decode_altitude 16 ≠ (3048 / 10000 : ℚ) * (-1000) := by
  have h : ((((0xFE0 &&& 16) >>> 1) ||| (0xF &&& 16)) *
      (if 0x010 &&& 16 > 0 then 25 else 100) + (2 ^ 32 - 1000)) % 2 ^ 32 =
      4294966296 := by decide
  have hval : Adsb.decode_altitude 16 = (3048 / 10000 : ℚ) * 4294966296 := by
    simp only [Adsb.decode_altitude]
    rw [h]
    norm_num
  refine ⟨hval, ?_⟩
  rw [hval]
  norm_num

----------------------------------------------------------------
-- C5: AircraftId field population per id_type
----------------------------------------------------------------

/-- C5 counterexample: for `UtmAssigned` the handler populates BOTH fields —
`identifier` keeps the JWT identifier while `session_id` receives the
uas-id string — so exactly-one-populated fails. -/
theorem process_basic_message_counterexample :
    Netrid.exactlyOneIdField
      (Netrid.process_basic_message "jwt-id" Netrid.IdType.UtmAssigned "session-0")
        = false ∧
    (Netrid.process_basic_message "jwt-id" Netrid.IdType.UtmAssigned
        "session-0").identifier = some "jwt-id" ∧
    (Netrid.process_basic_message "jwt-id" Netrid.IdType.UtmAssigned
        "session-0").session_id = some "session-0" := by decide

/-- C5 amended: for `UtmAssigned` and `SpecificSession` both fields are
populated (`identifier` keeps the JWT identifier, `session_id` receives the
uas-id string); for every other id_type exactly one field is populated,
namely `identifier` with the uas-id string. -/
theorem process_basic_message_spec (jwt uas : String) (idt : Netrid.IdType) :
    (idt = Netrid.IdType.UtmAssigned ∨ idt = Netrid.IdType.SpecificSession →
      Netrid.process_basic_message jwt idt uas =
        { identifier := some jwt, session_id := some uas }) ∧
    (idt ≠ Netrid.IdType.UtmAssigned → idt ≠ Netrid.IdType.SpecificSession →
      Netrid.process_basic_message jwt idt uas =
        { identifier := some uas, session_id := none } ∧
      Netrid.exactlyOneIdField (Netrid.process_basic_message jwt idt uas) = true) := by
  cases idt <;>
    simp [Netrid.process_basic_message, Netrid.exactlyOneIdField]

/-- Witness for C5 at a concrete session-type message. -/
theorem process_basic_message_spec_witness :
    Netrid.process_basic_message "a" Netrid.IdType.SpecificSession "b" =
      { identifier := some "a", session_id := some "b" } :=
  (process_basic_message_spec "a" "b" Netrid.IdType.SpecificSession).1 (Or.inr rfl)

----------------------------------------------------------------
-- C1: the dedup counter refreshes the TTL on every increment
----------------------------------------------------------------

/-- C1: with TTL 100 ms and calls at 0, 60 and 120 ms, the source (which
runs `PEXPIRE` on every call — the `NX` option is commented out) returns
1, 2, 3: the call at 60 ms pushed the expiry to 160 ms, so the entry is
still alive at 120 ms.  Under the documented behaviour (expiry set only on
create, as the claim and the function's own doc comment state) the same
trace returns 1, 2, 1, because the entry created at 0 ms expires at 100 ms. -/
theorem increment_ttl_refresh_divergence :
    Cache.incrementTrace "telemetry" "k" 100 [] [0, 60, 120] = [1, 2, 3] ∧
    Cache.incrementDocTrace "telemetry" "k" 100 [] [0, 60, 120] = [1, 2, 1] := by
  decide

----------------------------------------------------------------
-- C3: batcher behaviour under a failing spatial-service client
----------------------------------------------------------------

/-- C3 counterexample: the batch `[7]` drained in a failing iteration stays
in the request buffer and IS sent to the spatial service on the very next
iteration once the client is back and the ring is empty — refuting "the
drained batch is never sent again on any later iteration". -/
theorem gis_batch_replay_counterexample :
    (Gis.gis_batch_step 2 true false [7] []).invalidated = true ∧
    (Gis.gis_batch_step 2 true false [7] []).sent = none ∧
    (Gis.gis_batch_step 2 true true (Gis.gis_batch_step 2 true false [7] []).ring
      (Gis.gis_batch_step 2 true false [7] []).data).sent = some [7] := by
  decide

/-- C3 amended: when the spatial-service call fails, the iteration
invalidates the client and continues; the ring is not restored (the drained
elements stay removed).  The drained batch, however, is NOT lost: it
remains in the persistent request buffer, and any later iteration with an
available client and an empty ring sends exactly that batch again. -/
theorem gis_batch_failure_spec (max_items : Nat) (ring data : List Nat)
    (hring : ring ≠ []) (hmax : 0 < max_items) :
    (Gis.gis_batch_step max_items true false ring data).invalidated = true ∧
    (Gis.gis_batch_step max_items true false ring data).sent = none ∧
    (Gis.gis_batch_step max_items true false ring data).ring =
      ring.drop (min max_items ring.length) ∧
    (Gis.gis_batch_step max_items true false ring data).data =
      ring.take (min max_items ring.length) ∧
    (∀ send_ok : Bool,
      (Gis.gis_batch_step max_items true false ring data).ring = [] →
      (Gis.gis_batch_step max_items true send_ok
          (Gis.gis_batch_step max_items true false ring data).ring
          (Gis.gis_batch_step max_items true false ring data).data).data =
        (Gis.gis_batch_step max_items true false ring data).data ∧
      (send_ok = true →
        (Gis.gis_batch_step max_items true send_ok
            (Gis.gis_batch_step max_items true false ring data).ring
            (Gis.gis_batch_step max_items true false ring data).data).sent =
          some (Gis.gis_batch_step max_items true false ring data).data)) := by
  have hne : ring.isEmpty = false := by
    cases ring with
    | nil => exact absurd rfl hring
    | cons a t => rfl
  have hlen : 0 < ring.length := List.length_pos.mpr hring
  have htake : ring.take (min max_items ring.length) ≠ [] := by
    simp only [ne_eq, List.take_eq_nil_iff]
    push_neg
    exact ⟨by omega, hring⟩
  have htakeE : (ring.take (min max_items ring.length)).isEmpty = false := by
    cases htk : ring.take (min max_items ring.length) with
    | nil => exact absurd htk htake
    | cons a t => rfl
  have hstep : Gis.gis_batch_step max_items true false ring data =
      { ring := ring.drop (min max_items ring.length),
        data := ring.take (min max_items ring.length),
        sent := none, invalidated := true } := by
    simp [Gis.gis_batch_step, hne, htakeE]
  rw [hstep]
  refine ⟨rfl, rfl, rfl, rfl, ?_⟩
  intro send_ok hempty
  have hempty' : ring.drop (min max_items ring.length) = [] := hempty
  have hsecond : Gis.gis_batch_step max_items true send_ok
      (ring.drop (min max_items ring.length))
      (ring.take (min max_items ring.length)) =
      Gis.gis_batch_step max_items true send_ok []
        (ring.take (min max_items ring.length)) := by rw [hempty']
  rw [hsecond]
  cases send_ok with
  | false =>
    refine ⟨by simp [Gis.gis_batch_step, htakeE], ?_⟩
    intro h
    exact absurd h (by decide)
  | true =>
    exact ⟨by simp [Gis.gis_batch_step, htakeE], fun _ => by
      simp [Gis.gis_batch_step, htakeE]⟩

/-- Witness for C3 at a concrete failing iteration. -/
theorem gis_batch_failure_spec_witness :
    (Gis.gis_batch_step 3 true false [5, 6] [9]).invalidated = true ∧
    (Gis.gis_batch_step 3 true false [5, 6] [9]).sent = none ∧
    (Gis.gis_batch_step 3 true false [5, 6] [9]).ring =
      [5, 6].drop (min 3 [5, 6].length) ∧
    (Gis.gis_batch_step 3 true false [5, 6] [9]).data =
      [5, 6].take (min 3 [5, 6].length) ∧
    (∀ send_ok : Bool,
      (Gis.gis_batch_step 3 true false [5, 6] [9]).ring = [] →
      (Gis.gis_batch_step 3 true send_ok
          (Gis.gis_batch_step 3 true false [5, 6] [9]).ring
          (Gis.gis_batch_step 3 true false [5, 6] [9]).data).data =
        (Gis.gis_batch_step 3 true false [5, 6] [9]).data ∧
      (send_ok = true →
        (Gis.gis_batch_step 3 true send_ok
            (Gis.gis_batch_step 3 true false [5, 6] [9]).ring
            (Gis.gis_batch_step 3 true false [5, 6] [9]).data).sent =
          some (Gis.gis_batch_step 3 true false [5, 6] [9]).data)) :=
  gis_batch_failure_spec 3 [5, 6] [9] (by decide) (by decide)

----------------------------------------------------------------
-- C4: decode_speed_direction formulas and subtype dispatch
----------------------------------------------------------------

/-- C4: for subtype 1 the decoder returns speed `hypot(vx,vy)·0.514444` and
track `atan2(vx,vy)·360/(2π)` normalised, with `vx = ±(ew_vel−1)` and
`vy = ±(ns_vel−1)`; for subtype 2 both components carry the factor 4;
subtypes 3 and 4 fail with `UnsupportedSubtype`, every other subtype with
`InvalidSubtype`; and every successful track lies in `[0, 360)`. -/
theorem decode_speed_direction_spec (ew_vel ns_vel : Nat)
    (ew_sign ns_sign : Adsb.Sign) :
    (Adsb.decode_speed_direction 1 ew_sign ew_vel ns_sign ns_vel =
      Except.ok
        (Real.sqrt (((sgnZ ew_sign * ((ew_vel : ℤ) - 1) : ℤ) : ℝ) ^ 2 +
            ((sgnZ ns_sign * ((ns_vel : ℤ) - 1) : ℤ) : ℝ) ^ 2) * (514444 / 1000000),
         Adsb.normalize360
           (Adsb.atan2 ((sgnZ ew_sign * ((ew_vel : ℤ) - 1) : ℤ) : ℝ)
              ((sgnZ ns_sign * ((ns_vel : ℤ) - 1) : ℤ) : ℝ) *
            (360 / (2 * Real.pi))))) ∧
    (Adsb.decode_speed_direction 2 ew_sign ew_vel ns_sign ns_vel =
      Except.ok
        (Real.sqrt (((sgnZ ew_sign * (4 * ((ew_vel : ℤ) - 1)) : ℤ) : ℝ) ^ 2 +
            ((sgnZ ns_sign * (4 * ((ns_vel : ℤ) - 1)) : ℤ) : ℝ) ^ 2) *
          (514444 / 1000000),
         Adsb.normalize360
           (Adsb.atan2 ((sgnZ ew_sign * (4 * ((ew_vel : ℤ) - 1)) : ℤ) : ℝ)
              ((sgnZ ns_sign * (4 * ((ns_vel : ℤ) - 1)) : ℤ) : ℝ) *
            (360 / (2 * Real.pi))))) ∧
    Adsb.decode_speed_direction 3 ew_sign ew_vel ns_sign ns_vel =
      Except.error Adsb.DecodeError.UnsupportedSubtype ∧
    Adsb.decode_speed_direction 4 ew_sign ew_vel ns_sign ns_vel =
      Except.error Adsb.DecodeError.UnsupportedSubtype ∧
    (∀ st, st ≠ 1 → st ≠ 2 → st ≠ 3 → st ≠ 4 →
      Adsb.decode_speed_direction st ew_sign ew_vel ns_sign ns_vel =
        Except.error Adsb.DecodeError.InvalidSubtype) ∧
    (∀ st (p : ℝ × ℝ),
      Adsb.decode_speed_direction st ew_sign ew_vel ns_sign ns_vel = Except.ok p →
      0 ≤ p.2 ∧ p.2 < 360) := by
  refine ⟨?_, ?_, ?_, ?_, ?_, ?_⟩
  · cases ew_sign <;> cases ns_sign <;>
      simp only [Adsb.decode_speed_direction, Adsb.velocityComponents, Except.map,
        Adsb.speed_mps, Adsb.direction_deg, sgnZ, reduceIte] <;>
      norm_num
  · cases ew_sign <;> cases ns_sign <;>
      simp only [Adsb.decode_speed_direction, Adsb.velocityComponents, Except.map,
        Adsb.speed_mps, Adsb.direction_deg, sgnZ, reduceIte] <;>
      norm_num
  · simp [Adsb.decode_speed_direction, Adsb.velocityComponents, Except.map]
  · simp [Adsb.decode_speed_direction, Adsb.velocityComponents, Except.map]
  · intro st h1 h2 h3 h4
    simp [Adsb.decode_speed_direction, Adsb.velocityComponents, h1, h2, h3, h4,
      Except.map]
  · intro st p h
    exact decode_speed_direction_ok_range st ew_vel ns_vel ew_sign ns_sign p h

/-- Witness for C4 at the unsupported subtype 3. -/
theorem decode_speed_direction_spec_witness :
    Adsb.decode_speed_direction 3 Adsb.Sign.Negative 9 Adsb.Sign.Negative 160 =
      Except.error Adsb.DecodeError.UnsupportedSubtype :=
  (decode_speed_direction_spec 9 160 Adsb.Sign.Negative Adsb.Sign.Negative).2.2.1

----------------------------------------------------------------
-- C2: the airborne-position arm and the CPR pair cache
----------------------------------------------------------------

/-- C2 counterexample: an odd-parity frame whose opposite-parity (even)
halves ARE in the cache, with a decoder that succeeds on every input,
still emits nothing — `gis_position_push` returns before fetching whenever
the fresh frame is odd, refuting the claim for odd parity. -/
theorem adsb_position_arm_odd_counterexample :
    (Adsb.adsb_position_arm parityFix decAny evenHalvesCache
      { icao := 0x123456, odd_flag := Adsb.CPRFormat.Odd,
        lat_cpr := 7, lon_cpr := 8, alt := 100 }).2 = Adsb.PushOutcome.skipped ∧
    Adsb.pairLookup
      (Adsb.adsb_position_arm parityFix decAny evenHalvesCache
        { icao := 0x123456, odd_flag := Adsb.CPRFormat.Odd,
          lat_cpr := 7, lon_cpr := 8, alt := 100 }).1
      (Adsb.cprKeyStr 0x123456 Adsb.CprField.latCpr
        (parityFix Adsb.CPRFormat.Even)) = some 5 ∧
    decAny 5 6 7 8 = some (0, 0) :=
  ⟨by decide, by decide, rfl⟩

/-- The two CPR fetch keys are joined by a space into one `MGET` key, which
yields at most one value for two requested keys, so `multiple_get` on a
two-key list fails on every cache state. -/
theorem multiple_get_two_keys_fails (cache : Adsb.PairCache) (k1 k2 : String) :
    Adsb.multiple_get cache [k1, k2] = none := by
  unfold Adsb.multiple_get
  cases h : Adsb.pairLookup cache (String.intercalate " " [k1, k2]) <;>
    simp [h]

/-- C2 amended: the arm stores the fresh CPR halves under the
(icao, parity) keys for BOTH parities, but no AircraftPosition is ever
emitted: an odd frame returns before fetching, and an even frame's fetch of
the two odd-parity halves always fails with OperationFailed (the handler
answers 500), because `multiple_get` joins the two keys with a space into a
single `MGET` key that no store ever writes — the decode/emit path is
unreachable for every cache state, decoder and parity rendering. -/
theorem adsb_position_arm_spec (parityStr : Adsb.CPRFormat → String)
    (dec : Nat → Nat → Nat → Nat → Option (ℚ × ℚ))
    (cache : Adsb.PairCache) (f : Adsb.AirbornePositionFields) :
    (Adsb.adsb_position_arm parityStr dec cache f).1 =
      (Adsb.cprKeyStr f.icao Adsb.CprField.latCpr (parityStr f.odd_flag),
        f.lat_cpr) ::
      (Adsb.cprKeyStr f.icao Adsb.CprField.lonCpr (parityStr f.odd_flag),
        f.lon_cpr) :: cache ∧
    (f.odd_flag = Adsb.CPRFormat.Odd →
      (Adsb.adsb_position_arm parityStr dec cache f).2 =
        Adsb.PushOutcome.skipped) ∧
    (f.odd_flag = Adsb.CPRFormat.Even →
      (Adsb.adsb_position_arm parityStr dec cache f).2 =
        Adsb.PushOutcome.failed) ∧
    (∀ p, (Adsb.adsb_position_arm parityStr dec cache f).2 ≠
      Adsb.PushOutcome.pushed p) := by
  refine ⟨rfl, ?_, ?_, ?_⟩
  · intro h
    simp [Adsb.adsb_position_arm, Adsb.gis_position_push, h]
  · intro h
    simp [Adsb.adsb_position_arm, Adsb.gis_position_push, h,
      multiple_get_two_keys_fails]
  · intro p
    cases hodd : f.odd_flag with
    | Odd =>
      simp [Adsb.adsb_position_arm, Adsb.gis_position_push, hodd]
    | Even =>
      simp [Adsb.adsb_position_arm, Adsb.gis_position_push, hodd,
        multiple_get_two_keys_fails]

/-- Witness for C2 at a concrete even frame: the fetch fails and the
handler path ends in the 500 error, emitting nothing. -/
theorem adsb_position_arm_spec_witness :
    (Adsb.adsb_position_arm parityFix decAny evenHalvesCache
      { icao := 1, odd_flag := Adsb.CPRFormat.Even, lat_cpr := 2,
        lon_cpr := 3, alt := 4 }).2 = Adsb.PushOutcome.failed :=
  (adsb_position_arm_spec parityFix decAny evenHalvesCache
    { icao := 1, odd_flag := Adsb.CPRFormat.Even, lat_cpr := 2,
      lon_cpr := 3, alt := 4 }).2.2.1 rfl

----------------------------------------------------------------
-- C6: login status codes and token payload
----------------------------------------------------------------

/-- C6 counterexample: the single byte 0xFF is a non-empty identifier, yet
`login` answers 400 (the body fails the `String::from_utf8` check before
the emptiness check), refuting "any non-empty identifier returns 200". -/
theorem login_utf8_counterexample :
    Jwt.login [255] 0 0 = Except.error 400 := by decide

/-- C6 amended: an empty identifier gets 400; a body that is not valid
UTF-8 gets 400; a non-empty valid-UTF-8 identifier (with both clock reads
non-negative) gets a token whose claim has `sub` equal to the identifier,
`iat` the first clock read, and `exp` equal to 360 seconds after the
SECOND clock read — which equals `iat + 360` whenever the two clock reads
coincide. -/
theorem login_spec (body : List Nat) (t_iat t_exp : Int) :
    (body = [] → Jwt.login body t_iat t_exp = Except.error 400) ∧
    (Jwt.validUtf8 body = false → Jwt.login body t_iat t_exp = Except.error 400) ∧
    (body ≠ [] → Jwt.validUtf8 body = true → 0 ≤ t_iat → 0 ≤ t_exp →
      Jwt.login body t_iat t_exp =
        Except.ok { sub := body, iat := t_iat.toNat, exp := (t_exp + 360).toNat }) ∧
    (∀ c, Jwt.login body t_iat t_iat = Except.ok c →
      (c.exp : ℤ) = (c.iat : ℤ) + 360 ∧ c.sub = body) := by
  refine ⟨?_, ?_, ?_, ?_⟩
  · intro h
    subst h
    unfold Jwt.login
    rw [if_neg (by decide : ¬(Jwt.validUtf8 ([] : List Nat) = false)),
      if_pos (by decide : ([] : List Nat).isEmpty = true)]
  · intro h
    simp [Jwt.login, h]
  · intro h1 h2 h3 h4
    have hie : body.isEmpty = false := by
      cases body with
      | nil => exact absurd rfl h1
      | cons a t => rfl
    have h5 : ¬t_iat < 0 := by omega
    have h6 : ¬t_exp + 360 < 0 := by omega
    have c1 : ¬(Jwt.validUtf8 body = false) := by simp [h2]
    have c2 : ¬(body.isEmpty = true) := by simp [hie]
    unfold Jwt.login Jwt.claimCreate
    rw [if_neg c1, if_neg c2, if_neg h5, if_neg h6]
  · intro c h
    unfold Jwt.login Jwt.claimCreate at h
    split_ifs at h
    rw [Except.ok.injEq] at h
    subst h
    refine ⟨?_, rfl⟩
    show (((t_iat + 360).toNat : ℤ)) = ((t_iat.toNat : ℤ)) + 360
    omega

/-- Witness for C6 at a concrete valid identifier and clock readings. -/
theorem login_spec_witness :
    Jwt.login [104] 5 7 =
      Except.ok { sub := [104], iat := (5 : ℤ).toNat, exp := ((7 : ℤ) + 360).toNat } :=
  (login_spec [104] 5 7).2.2.1 (by decide) (by decide) (by decide) (by decide)

----------------------------------------------------------------
-- C8: range of track_angle_degrees
----------------------------------------------------------------

/-- C8 counterexample: the Remote-ID location message facing West with
`track_direction = 200` is accepted, and the emitted velocity record has
`track_angle_degrees = 380`, outside `[0, 360)`. -/
theorem netrid_track_counterexample :
    Netrid.process_location_velocity "drone" westTrackMsg =
      Except.ok westTrackVelocity ∧
    westTrackVelocity.track_angle_degrees = 380 ∧
    ¬(westTrackVelocity.track_angle_degrees < 360) := by
  refine ⟨?_, rfl, by norm_num [westTrackVelocity]⟩
  norm_num [Netrid.process_location_velocity, Netrid.decode_altitude,
    Netrid.decode_speed, Netrid.decode_vertical_speed, Netrid.decode_direction,
    westTrackMsg, westTrackVelocity]

/-- C8 amended: every velocity decoded from an ADS-B airborne-velocity
frame has track in `[0, 360)`; a velocity emitted for a Remote-ID location
message has track equal to `track_direction` plus 180 when the east-west
flag is West, which is at most 435 and lies in `[0, 360)` exactly when the
flag is East or `track_direction ≤ 179`. -/
theorem track_angle_range_spec :
    (∀ (st ew_vel ns_vel : Nat) (ew_sign ns_sign : Adsb.Sign) (p : ℝ × ℝ),
      Adsb.decode_speed_direction st ew_sign ew_vel ns_sign ns_vel = Except.ok p →
      0 ≤ p.2 ∧ p.2 < 360) ∧
    (∀ (ident : String) (m : Netrid.LocationMessage)
        (r : Netrid.AircraftVelocity),
      m.track_direction < 256 →
      Netrid.process_location_velocity ident m = Except.ok r →
      r.track_angle_degrees = (Netrid.decode_direction m : ℚ) ∧
      Netrid.decode_direction m ≤ 435 ∧
      (r.track_angle_degrees < 360 ↔
        (m.ew_direction = Netrid.EastWestDirection.East ∨
          m.track_direction ≤ 179))) := by
  constructor
  · intro st ew_vel ns_vel ew_sign ns_sign p h
    exact decode_speed_direction_ok_range st ew_vel ns_vel ew_sign ns_sign p h
  · intro ident m r htrack h
    unfold Netrid.process_location_velocity at h
    cases ha : Netrid.decode_altitude m with
    | error e => rw [ha] at h; exact absurd h (by simp)
    | ok altv =>
      rw [ha] at h
      cases hs : Netrid.decode_speed m with
      | error e => rw [hs] at h; exact absurd h (by simp)
      | ok v_h =>
        rw [hs] at h
        cases hvs : Netrid.decode_vertical_speed m with
        | error e => rw [hvs] at h; exact absurd h (by simp)
        | ok v_v =>
          rw [hvs] at h
          rw [Except.ok.injEq] at h
          subst h
          refine ⟨rfl, ?_, ?_⟩
          · cases hew : m.ew_direction <;>
              simp [Netrid.decode_direction, hew] <;> omega
          · have hcast : ((Netrid.decode_direction m : ℚ) < 360) ↔
                Netrid.decode_direction m < 360 := by
              constructor
              · intro hq
                exact_mod_cast hq
              · intro hn
                exact_mod_cast hn
            show ((Netrid.decode_direction m : ℚ) < 360) ↔ _
            rw [hcast]
            cases hew : m.ew_direction with
            | East =>
              have hdd : Netrid.decode_direction m = m.track_direction := by
                simp [Netrid.decode_direction, hew]
              rw [hdd]
              exact iff_of_true (by omega) (Or.inl rfl)
            | West =>
              have hdd : Netrid.decode_direction m = m.track_direction + 180 := by
                simp [Netrid.decode_direction, hew]
              rw [hdd]
              constructor
              · intro hlt
                exact Or.inr (by omega)
              · intro hle
                rcases hle with hE | hle
                · exact absurd hE (by simp)
                · omega

/-- Witness for C8 at the concrete west-facing message. -/
theorem track_angle_range_spec_witness :
    westTrackVelocity.track_angle_degrees =
      (Netrid.decode_direction westTrackMsg : ℚ) ∧
    Netrid.decode_direction westTrackMsg ≤ 435 ∧
    (westTrackVelocity.track_angle_degrees < 360 ↔
      (westTrackMsg.ew_direction = Netrid.EastWestDirection.East ∨
        westTrackMsg.track_direction ≤ 179)) :=
  track_angle_range_spec.2 "drone" westTrackMsg westTrackVelocity (by decide)
    (by norm_num [Netrid.process_location_velocity, Netrid.decode_altitude,
      Netrid.decode_speed, Netrid.decode_vertical_speed, Netrid.decode_direction,
      westTrackMsg, westTrackVelocity])

end Telemetry
